import Mathlib

/-!
Verification development for a WhatsApp assistant agent.

The development shallowly embeds the decision core of the agent:
the oracle-output classifier (analyzeWithAI), the router dispatch
(processMessage), the bounded persona store (learnFromUserMessage),
the device-data dispatcher (getPhoneData) and the inbound-message
handler with its group gating and catch-all error policy.

JavaScript string primitives used by the source (toUpperCase,
toLowerCase, startsWith, substring, trim, split, join) are modelled
by structurally recursive functions over the character list of a
Lean string, so that every definition is executable and every
concrete example can be settled by evaluation.
-/

namespace Agent

/-- Model of the JavaScript toUpperCase method (ASCII case mapping). -/
def jsToUpper (s : String) : String := ⟨s.data.map Char.toUpper⟩

/-- Model of the JavaScript toLowerCase method (ASCII case mapping). -/
def jsToLower (s : String) : String := ⟨s.data.map Char.toLower⟩

/-- Model of the JavaScript startsWith method: character-level prefix test. -/
def jsStartsWith (s p : String) : Bool := p.data.isPrefixOf s.data

/-- Model of the JavaScript substring(n) method: drop the first n characters. -/
def jsDrop (s : String) (n : Nat) : String := ⟨s.data.drop n⟩

/-- Whitespace characters stripped by the JavaScript trim method (ASCII subset). -/
def jsWhite (c : Char) : Bool := (c == ' ') || (c == '\t') || (c == '\n') || (c == '\r')

/-- Model of the JavaScript trim method: strip whitespace from both ends. -/
def jsTrim (s : String) : String :=
  ⟨((s.data.dropWhile jsWhite).reverse.dropWhile jsWhite).reverse⟩

/-- Split a character list at every occurrence of the separator.
Mirrors the JavaScript split method with a one-character separator:
the result is never empty, and splitting the empty string yields one
empty piece. -/
def splitChar (sep : Char) : List Char → List (List Char)
  | [] => [[]]
  | c :: cs =>
    let rest := splitChar sep cs
    if c == sep then [] :: rest
    else
      match rest with
      | [] => [[c]]
      | h :: t => (c :: h) :: t

/-- Model of the JavaScript split method with a one-character separator. -/
def jsSplit (s : String) (sep : Char) : List String :=
  (splitChar sep s.data).map (fun cs => ⟨cs⟩)

/-- The fixed apologetic fallback returned when the language-model oracle fails
(source: the catch branch of analyzeWithAI). -/
def fallbackResponse : String :=
  "I\x27m having trouble understanding your message right now. Could you please try again?"

/-- The analysis record produced by analyzeWithAI in the source: boolean intent
flags plus the optional payload fields. Fields that the source leaves undefined
or null on a given branch are modelled as none. -/
structure Analysis where
  needsSearch : Bool
  needsPhoneAccess : Bool
  searchQuery : Option String
  phoneAccessType : Option String
  phoneAccessQuery : Option String
  response : Option String
deriving DecidableEq, Repr

/-- Embedding of analyzeWithAI. The oracle call is abstracted as an
Except value: ok carries the oracle output text, error a failure. The
parsing of the oracle output follows the source line by line:
a case-insensitive SEARCH: prefix yields a search intent whose query is the
trimmed remainder; a case-insensitive PHONE: prefix yields a phone intent
whose type is the lower-cased first colon-separated field of the trimmed
remainder and whose query is the trimmed rejoining of the remaining fields;
anything else is a direct response; an oracle failure yields a direct
response carrying the fixed fallback text. -/
def analyzeWithAI (oracle : Except String String) : Analysis :=
  match oracle with
  | Except.error _ =>
      { needsSearch := false, needsPhoneAccess := false, searchQuery := none,
        phoneAccessType := none, phoneAccessQuery := none,
        response := some fallbackResponse }
  | Except.ok response =>
      if jsStartsWith (jsToUpper response) "SEARCH:" then
        { needsSearch := true, needsPhoneAccess := false,
          searchQuery := some (jsTrim (jsDrop response ( "SEARCH:".length))),
          phoneAccessType := none, phoneAccessQuery := none, response := none }
      else if jsStartsWith (jsToUpper response) "PHONE:" then
        let phoneCommand := jsTrim (jsDrop response ( "PHONE:".length))
        let parts := jsSplit phoneCommand ':'
        { needsSearch := false, needsPhoneAccess := true, searchQuery := none,
          phoneAccessType := some (jsToLower (parts.headD "")),
          phoneAccessQuery := some (jsTrim (String.intercalate ":" parts.tail)),
          response := none }
      else
        { needsSearch := false, needsPhoneAccess := false, searchQuery := none,
          phoneAccessType := none, phoneAccessQuery := none,
          response := some response }

/-- The typed action of the specification: a tagged variant over the three
fulfillment intents. -/
inductive Action where
  | direct (responseText : Option String)
  | search (query : String)
  | device (resourceKind : String) (queryText : String)
deriving DecidableEq, Repr

/-- View of the classifier output as a typed Action: the boolean flags of the
analysis record select the variant, exactly as the router consumes them. -/
def classify (oracle : Except String String) : Action :=
  let a := analyzeWithAI oracle
  if a.needsSearch then Action.search (a.searchQuery.getD "")
  else if a.needsPhoneAccess then
    Action.device (a.phoneAccessType.getD "") (a.phoneAccessQuery.getD "")
  else Action.direct a.response

/-- One record of the persona message history, as pushed by
learnFromUserMessage: a fixed user role, the message text and a timestamp. -/
structure HistoryEntry where
  role : String
  content : String
  timestamp : Nat
deriving DecidableEq, Repr

/-- The persona profile: the rolling message history and style samples,
exactly the two arrays of the userPersona object in the source. -/
structure UserPersona where
  messageHistory : List HistoryEntry
  styleSamples : List String
deriving DecidableEq, Repr

/-- The initial persona profile: both arrays empty. -/
def emptyPersona : UserPersona := { messageHistory := [], styleSamples := [] }

/-- Push-then-evict step used by the source on both persona arrays:
append the new element, then drop the oldest element when the capacity
is exceeded (push followed by a conditional shift). -/
def capPush (cap : Nat) (xs : List α) (x : α) : List α :=
  if cap < (xs ++ [x]).length then (xs ++ [x]).tail else xs ++ [x]

/-- Embedding of learnFromUserMessage. Texts shorter than 10 characters are
ignored entirely; texts longer than 30 characters are appended to the style
samples with eviction at 50; every non-ignored text is appended to the
message history with eviction at 100. The boolean result records whether
the profile was persisted (saveUserPersona is called exactly when the
early return was not taken). -/
def learnFromUserMessage (p : UserPersona) (now : Nat) (messageText : String) :
    UserPersona × Bool :=
  if messageText.length < 10 then (p, false)
  else
    let samples :=
      if 30 < messageText.length then capPush 50 p.styleSamples messageText
      else p.styleSamples
    let history :=
      capPush 100 p.messageHistory
        { role := "user", content := messageText, timestamp := now }
    ({ messageHistory := history, styleSamples := samples }, true)

/-- Iterated observation: fold learnFromUserMessage over a list of
(timestamp, text) inputs, keeping only the evolving profile. -/
def observeAll (p : UserPersona) (msgs : List (Nat × String)) : UserPersona :=
  msgs.foldl (fun q m => (learnFromUserMessage q m.1 m.2).1) p

/-- The suffix of a list of length at most n: the n most recent entries in
insertion order. -/
def takeLast (n : Nat) (xs : List α) : List α := xs.drop (xs.length - n)

/-- The texts of a message sequence that qualify for the style samples:
those of length strictly above 30. -/
def qualifyingSamples (msgs : List (Nat × String)) : List String :=
  (msgs.filter (fun m => decide (30 < m.2.length))).map (fun m => m.2)

/-- The history entries produced by a message sequence: one user record per
text of length at least 10, carrying its timestamp. -/
def historyEntries (msgs : List (Nat × String)) : List HistoryEntry :=
  (msgs.filter (fun m => !decide (m.2.length < 10))).map
    (fun m => { role := "user", content := m.2, timestamp := m.1 })

/-- The feature-flag configuration read from the environment at startup. -/
structure Config where
  searchEnabled : Bool
  phoneIntegrationEnabled : Bool
  userPersonaEnabled : Bool
  groupRestrictionEnabled : Bool
  userPersonaLearningMode : Bool
deriving DecidableEq, Repr

/-- The fulfillment path executed by processMessage for one message, with the
payload handed to that path. The direct path carries the response field of
the analysis record, which the source returns as the reply (null included). -/
inductive Fulfillment where
  | searchPath (query : Option String)
  | devicePath (resourceKind queryText : Option String)
  | personaPath
  | directPath (response : Option String)
deriving DecidableEq, Repr

/-- Embedding of processMessage: classify the message via the oracle, then
dispatch in the fixed order of the source — search intent with search
enabled first, then phone intent with phone integration enabled, then
persona mode with at least 5 style samples, and finally the direct
response of the analysis record. -/
def processMessage (cfg : Config) (persona : UserPersona)
    (oracle : Except String String) : Fulfillment :=
  let aiAnalysis := analyzeWithAI oracle
  if aiAnalysis.needsSearch && cfg.searchEnabled then
    Fulfillment.searchPath aiAnalysis.searchQuery
  else if aiAnalysis.needsPhoneAccess && cfg.phoneIntegrationEnabled then
    Fulfillment.devicePath aiAnalysis.phoneAccessType aiAnalysis.phoneAccessQuery
  else if cfg.userPersonaEnabled && decide (5 ≤ persona.styleSamples.length) then
    Fulfillment.personaPath
  else
    Fulfillment.directPath aiAnalysis.response

/-- The device capability interface consumed by getPhoneData. Each provider
call may fail, modelled as an Except value; records are kept opaque as
serialized strings. -/
structure PhoneCapability where
  getContacts : Except String (List String)
  searchFiles : String → Except String (List String)
  getCalendarEvents : Except String (List String)
  getLocation : Except String (Int × Int)

/-- The heterogeneous device payload handed to the composer: a record list,
a single location record, or the error marker object of the source. -/
inductive PhoneData where
  | records (items : List String)
  | location (latitude longitude : Int)
  | errorMarker (message : String)
deriving DecidableEq, Repr

/-- The switch body of getPhoneData: dispatch on the resource kind, calling
the matching capability; an unrecognized kind returns the unknown-type error
marker without calling any capability. A capability failure propagates to
the surrounding catch. -/
def getPhoneDataBody (cap : PhoneCapability) (type query : String) :
    Except String PhoneData :=
  if type = "contacts" then Except.map PhoneData.records cap.getContacts
  else if type = "files" then Except.map PhoneData.records (cap.searchFiles query)
  else if type = "calendar" then Except.map PhoneData.records cap.getCalendarEvents
  else if type = "location" then
    Except.map (fun l => PhoneData.location l.1 l.2) cap.getLocation
  else Except.ok (PhoneData.errorMarker ( "Unknown phone data type: " ++ type))

/-- Embedding of getPhoneData: the switch body wrapped in the catch that
converts any thrown capability error into the failed-access error marker. -/
def getPhoneData (cap : PhoneCapability) (type query : String) : PhoneData :=
  match getPhoneDataBody cap type query with
  | Except.ok d => d
  | Except.error m =>
      PhoneData.errorMarker ( "Failed to access " ++ type ++ " data: " ++ m)

/-- The stubbed phone-integration module of the repository: contacts, files
and calendar return empty lists, location returns the zero coordinates, and
no call ever fails. -/
def PhoneIntegration : PhoneCapability :=
  { getContacts := Except.ok [],
    searchFiles := fun _ => Except.ok [],
    getCalendarEvents := Except.ok [],
    getLocation := Except.ok (0, 0) }

/-- The chat facts the handler queries from the transport. -/
structure ChatInfo where
  chatId : String
  isGroup : Bool
deriving DecidableEq, Repr

/-- The observable outcome of the inbound-message handler: either nothing is
sent, or one reply (whose payload mirrors the value handed to reply). -/
inductive HandlerOutcome where
  | noReply
  | reply (text : Option String)
deriving DecidableEq, Repr

/-- The generic apology sent by the catch-all of the message handler. -/
def errorApology : String :=
  "Sorry, I encountered an error while processing your message."

/-- Embedding of the inbound-message handler. The chat lookup and the
classify-execute-compose pipeline are abstracted as Except values; any
failure of either lands in the catch-all, which sends the generic apology
only when group restriction is disabled. Self-authored messages never get
a reply; with group restriction enabled, messages from chats that are not
allowed groups are dropped before the pipeline runs. -/
def handleIncomingMessage (cfg : Config) (allowedGroupIds : List String)
    (fromMe : Bool) (chatResult : Except String ChatInfo)
    (pipeline : Except String (Option String)) : HandlerOutcome :=
  match chatResult with
  | Except.error _ =>
      if cfg.groupRestrictionEnabled then HandlerOutcome.noReply
      else HandlerOutcome.reply (some errorApology)
  | Except.ok chat =>
      if fromMe then HandlerOutcome.noReply
      else if cfg.groupRestrictionEnabled &&
          (!chat.isGroup || !(allowedGroupIds.contains chat.chatId)) then
        HandlerOutcome.noReply
      else
        match pipeline with
        | Except.ok r => HandlerOutcome.reply r
        | Except.error _ =>
            if cfg.groupRestrictionEnabled then HandlerOutcome.noReply
            else HandlerOutcome.reply (some errorApology)

theorem takeLast_of_le {n : Nat} {xs : List α} (h : xs.length ≤ n) :
    takeLast n xs = xs := by
  unfold takeLast
  rw [Nat.sub_eq_zero_of_le h, List.drop_zero]

theorem takeLast_length (n : Nat) (xs : List α) :
    (takeLast n xs).length = min n xs.length := by
  unfold takeLast
  rw [List.length_drop]
  omega

theorem capPush_eq_takeLast {cap : Nat} {xs : List α} (x : α) (h : xs.length ≤ cap) :
    capPush cap xs x = takeLast cap (xs ++ [x]) := by
  have hl : (xs ++ [x]).length = xs.length + 1 := by simp
  unfold capPush takeLast
  rw [hl]
  rcases Nat.lt_or_ge cap (xs.length + 1) with hc | hc
  · rw [if_pos hc]
    have he : xs.length + 1 - cap = 1 := by omega
    rw [he, List.drop_one]
  · rw [if_neg (Nat.not_lt.mpr hc)]
    have he : xs.length + 1 - cap = 0 := by omega
    rw [he, List.drop_zero]

theorem takeLast_append_left (n : Nat) (xs ys : List α) :
    takeLast n (takeLast n xs ++ ys) = takeLast n (xs ++ ys) := by
  rcases Nat.le_total xs.length n with h | h
  · rw [takeLast_of_le h]
  · have h1 : xs.drop (xs.length - n) ++ ys = (xs ++ ys).drop (xs.length - n) :=
      (List.drop_append_of_le_length (Nat.sub_le _ _)).symm
    simp only [takeLast]
    rw [h1]
    simp only [List.drop_drop, List.length_drop, List.length_append]
    congr 1
    omega

theorem observeAll_nil (p : UserPersona) : observeAll p [] = p := rfl

theorem observeAll_cons (p : UserPersona) (m : Nat × String)
    (rest : List (Nat × String)) :
    observeAll p (m :: rest) = observeAll (learnFromUserMessage p m.1 m.2).1 rest := rfl

theorem qualifyingSamples_cons_skip (m : Nat × String) (rest : List (Nat × String))
    (h : ¬ 30 < m.2.length) :
    qualifyingSamples (m :: rest) = qualifyingSamples rest := by
  simp [qualifyingSamples, List.filter_cons, h]

theorem qualifyingSamples_cons_keep (m : Nat × String) (rest : List (Nat × String))
    (h : 30 < m.2.length) :
    qualifyingSamples (m :: rest) = m.2 :: qualifyingSamples rest := by
  simp [qualifyingSamples, List.filter_cons, h]

theorem historyEntries_cons_skip (m : Nat × String) (rest : List (Nat × String))
    (h : m.2.length < 10) :
    historyEntries (m :: rest) = historyEntries rest := by
  simp [historyEntries, List.filter_cons, h]

theorem historyEntries_cons_keep (m : Nat × String) (rest : List (Nat × String))
    (h : ¬ m.2.length < 10) :
    historyEntries (m :: rest) =
      { role := "user", content := m.2, timestamp := m.1 } :: historyEntries rest := by
  simp [historyEntries, List.filter_cons, h]

/-- Invariant of the iterated persona observation: starting from any profile
within the caps, the style samples are always the 50 most recent qualifying
texts appended to the starting samples, and the history the 100 most recent
entries appended to the starting history. -/
theorem observeAll_spec (msgs : List (Nat × String)) :
    ∀ p : UserPersona, p.styleSamples.length ≤ 50 → p.messageHistory.length ≤ 100 →
      (observeAll p msgs).styleSamples =
        takeLast 50 (p.styleSamples ++ qualifyingSamples msgs) ∧
      (observeAll p msgs).messageHistory =
        takeLast 100 (p.messageHistory ++ historyEntries msgs) := by
  induction msgs with
  | nil =>
      intro p h1 h2
      constructor
      · rw [observeAll_nil]
        show p.styleSamples = takeLast 50 (p.styleSamples ++ qualifyingSamples [])
        rw [show qualifyingSamples [] = [] from rfl, List.append_nil, takeLast_of_le h1]
      · rw [observeAll_nil]
        show p.messageHistory = takeLast 100 (p.messageHistory ++ historyEntries [])
        rw [show historyEntries [] = [] from rfl, List.append_nil, takeLast_of_le h2]
  | cons m rest ih =>
      intro p h1 h2
      rw [observeAll_cons]
      by_cases h10 : m.2.length < 10
      · have hstep : (learnFromUserMessage p m.1 m.2).1 = p := by
          simp only [learnFromUserMessage, if_pos h10]
        rw [hstep, qualifyingSamples_cons_skip m rest (by omega),
          historyEntries_cons_skip m rest h10]
        exact ih p h1 h2
      · have hentry :
            capPush 100 p.messageHistory
                { role := "user", content := m.2, timestamp := m.1 } =
              takeLast 100 (p.messageHistory ++
                [{ role := "user", content := m.2, timestamp := m.1 }]) :=
          capPush_eq_takeLast _ h2
        have hh1 : (capPush 100 p.messageHistory
            { role := "user", content := m.2, timestamp := m.1 }).length ≤ 100 := by
          rw [hentry, takeLast_length]
          omega
        have hhist : (learnFromUserMessage p m.1 m.2).1.messageHistory =
            capPush 100 p.messageHistory
              { role := "user", content := m.2, timestamp := m.1 } := by
          by_cases h30 : 30 < m.2.length
          · simp only [learnFromUserMessage, if_neg h10, if_pos h30]
          · simp only [learnFromUserMessage, if_neg h10, if_neg h30]
        by_cases h30 : 30 < m.2.length
        · have hsamp : (learnFromUserMessage p m.1 m.2).1.styleSamples =
              capPush 50 p.styleSamples m.2 := by
            simp only [learnFromUserMessage, if_neg h10, if_pos h30]
          have hs1 : (capPush 50 p.styleSamples m.2).length ≤ 50 := by
            rw [capPush_eq_takeLast m.2 h1, takeLast_length]
            omega
          obtain ⟨ihs, ihh⟩ := ih (learnFromUserMessage p m.1 m.2).1
            (by rw [hsamp]; exact hs1) (by rw [hhist]; exact hh1)
          constructor
          · rw [ihs, hsamp, capPush_eq_takeLast m.2 h1, takeLast_append_left,
              List.append_assoc, qualifyingSamples_cons_keep m rest h30]
            rfl
          · rw [ihh, hhist, hentry, takeLast_append_left, List.append_assoc,
              historyEntries_cons_keep m rest h10]
            rfl
        · have hsamp : (learnFromUserMessage p m.1 m.2).1.styleSamples =
              p.styleSamples := by
            simp only [learnFromUserMessage, if_neg h10, if_neg h30]
          obtain ⟨ihs, ihh⟩ := ih (learnFromUserMessage p m.1 m.2).1
            (by rw [hsamp]; exact h1) (by rw [hhist]; exact hh1)
          constructor
          · rw [ihs, hsamp, qualifyingSamples_cons_skip m rest h30]
          · rw [ihh, hhist, hentry, takeLast_append_left, List.append_assoc,
              historyEntries_cons_keep m rest h10]
            rfl

/-- C5: after every sequence of observe calls starting from the empty profile,
the style samples hold at most 50 entries and the history at most 100, each
being exactly the suffix of most recent entries (oldest dropped first); and
once more than 50 qualifying texts (length above 30) have been observed, the
style samples are exactly the 50 most recent qualifying texts in insertion
order. -/
theorem personaBounds (msgs : List (Nat × String)) :
    (observeAll emptyPersona msgs).styleSamples.length ≤ 50 ∧
    (observeAll emptyPersona msgs).messageHistory.length ≤ 100 ∧
    (observeAll emptyPersona msgs).styleSamples =
      takeLast 50 (qualifyingSamples msgs) ∧
    (observeAll emptyPersona msgs).messageHistory =
      takeLast 100 (historyEntries msgs) ∧
    (50 < (qualifyingSamples msgs).length →
      (observeAll emptyPersona msgs).styleSamples.length = 50 ∧
      (observeAll emptyPersona msgs).styleSamples =
        (qualifyingSamples msgs).drop ((qualifyingSamples msgs).length - 50)) := by
  obtain ⟨hs, hh⟩ := observeAll_spec msgs emptyPersona (by simp [emptyPersona])
    (by simp [emptyPersona])
  rw [show emptyPersona.styleSamples = [] from rfl, List.nil_append] at hs
  rw [show emptyPersona.messageHistory = [] from rfl, List.nil_append] at hh
  refine ⟨?_, ?_, hs, hh, ?_⟩
  · rw [hs, takeLast_length]
    omega
  · rw [hh, takeLast_length]
    omega
  · intro hq
    constructor
    · rw [hs, takeLast_length]
      omega
    · rw [hs]
      rfl

/-- C5 witness input: 51 observations of a 40-character text, all qualifying. -/
def manyMsgs : List (Nat × String) :=
  List.replicate 51 (0, "aaaaaaaaaaaaaaaaaaaaaaaaaaaaaaaaaaaaaaaa")

/-- C5 witness: after 51 qualifying observations the style-sample count is
exactly 50. -/
theorem personaBoundsWitness :
    50 < (qualifyingSamples manyMsgs).length ∧
    (observeAll emptyPersona manyMsgs).styleSamples.length = 50 :=
  ⟨by decide, ((personaBounds manyMsgs).2.2.2.2 (by decide)).1⟩

/-- C6: observing a text shorter than 10 characters leaves the profile
completely unchanged and does not invoke persistence (the boolean
persistence flag is false). -/
theorem observeShortNoop (p : UserPersona) (now : Nat) (t : String)
    (h : t.length < 10) :
    learnFromUserMessage p now t = (p, false) := by
  simp only [learnFromUserMessage, if_pos h]

/-- C6 witness: observing the two-character text leaves the empty profile
untouched and unpersisted. -/
theorem observeShortNoopWitness :
    learnFromUserMessage emptyPersona 0 "hi" = (emptyPersona, false) :=
  observeShortNoop emptyPersona 0 "hi" (by decide)

theorem phonePrefixExcludesSearch (u : String)
    (h : jsStartsWith u "PHONE:" = true) : jsStartsWith u "SEARCH:" = false := by
  unfold jsStartsWith at h ⊢
  have eP : ( "PHONE:" : String).data = [ 'P', 'H', 'O', 'N', 'E', ':' ] := rfl
  have eS : ( "SEARCH:" : String).data = [ 'S', 'E', 'A', 'R', 'C', 'H', ':' ] := rfl
  rw [eP] at h
  rw [eS]
  cases hd : u.data with
  | nil =>
      rw [hd] at h
      simp [List.isPrefixOf] at h
  | cons c cs =>
      rw [hd] at h
      rw [List.isPrefixOf_cons₂, Bool.and_eq_true, beq_iff_eq] at h
      rw [List.isPrefixOf_cons₂, ← h.1]
      rfl

/-- C3: on every oracle output whose case-insensitive prefix is PHONE:, the
classifier splits the trimmed remainder at its colons, lower-cases the first
field as the resource kind, and rejoins all further fields with colons
(trimmed) as the query text — so only the first colon separates; the two
concrete examples of the specification are included. -/
theorem classifyPhonePrefix (s : String)
    (hp : jsStartsWith (jsToUpper s) "PHONE:" = true) :
    classify (Except.ok s) = Action.device
      (jsToLower ((jsSplit (jsTrim (jsDrop s ( "PHONE:".length))) ':').headD ""))
      (jsTrim (String.intercalate ":"
        ((jsSplit (jsTrim (jsDrop s ( "PHONE:".length))) ':').tail))) ∧
    classify (Except.ok "PHONE: files: invoice 2023") =
      Action.device "files" "invoice 2023" ∧
    classify (Except.ok "PHONE: location:") = Action.device "location" "" := by
  have hs := phonePrefixExcludesSearch (jsToUpper s) hp
  refine ⟨?_, by decide, by decide⟩
  simp [classify, analyzeWithAI, hp, hs]

/-- C3 witness: the classifier at the first concrete example of the claim. -/
theorem classifyPhonePrefixWitness :
    classify (Except.ok "PHONE: files: invoice 2023") =
      Action.device "files" "invoice 2023" :=
  (classifyPhonePrefix "PHONE: files: invoice 2023" (by decide)).2.1

/-- C4: on every oracle output whose case-insensitive prefix is SEARCH:, the
classifier yields a search action whose query is the trimmed remainder; and
on every output bearing neither prefix it yields a direct action carrying the
full oracle output as a valid answer. -/
theorem classifySearchAndDirect (s t : String)
    (hs : jsStartsWith (jsToUpper s) "SEARCH:" = true)
    (h1 : jsStartsWith (jsToUpper t) "SEARCH:" = false)
    (h2 : jsStartsWith (jsToUpper t) "PHONE:" = false) :
    classify (Except.ok s) =
      Action.search (jsTrim (jsDrop s ( "SEARCH:".length))) ∧
    classify (Except.ok "SEARCH: weather in Lagos") =
      Action.search "weather in Lagos" ∧
    classify (Except.ok t) = Action.direct (some t) := by
  refine ⟨?_, by decide, ?_⟩
  · simp [classify, analyzeWithAI, hs]
  · simp [classify, analyzeWithAI, h1, h2]

/-- C4 witness: the classifier at the concrete search example and at a
prefix-free output. -/
theorem classifySearchAndDirectWitness :
    classify (Except.ok "SEARCH: weather in Lagos") =
      Action.search "weather in Lagos" ∧
    classify (Except.ok "sure, happy to help") =
      Action.direct (some "sure, happy to help") := by
  have h := classifySearchAndDirect "SEARCH: weather in Lagos" "sure, happy to help"
    (by decide) (by decide) (by decide)
  exact ⟨h.2.1, h.2.2⟩

/-- C7: when the oracle call fails, the classifier does not raise — it
returns the analysis record of a direct action carrying the fixed apologetic
fallback message, so the router always receives a usable action. -/
theorem classifyOracleFailure (e : String) :
    analyzeWithAI (Except.error e) =
      { needsSearch := false, needsPhoneAccess := false, searchQuery := none,
        phoneAccessType := none, phoneAccessQuery := none,
        response := some fallbackResponse } ∧
    classify (Except.error e) = Action.direct (some fallbackResponse) :=
  ⟨rfl, rfl⟩

/-- Configuration with every feature flag disabled. -/
def cfgAllOff : Config :=
  { searchEnabled := false, phoneIntegrationEnabled := false,
    userPersonaEnabled := false, groupRestrictionEnabled := false,
    userPersonaLearningMode := false }

/-- Configuration with every feature flag enabled. -/
def cfgAllOn : Config :=
  { searchEnabled := true, phoneIntegrationEnabled := true,
    userPersonaEnabled := true, groupRestrictionEnabled := true,
    userPersonaLearningMode := true }

/-- A profile holding five style samples, making persona mode eligible. -/
def persona5 : UserPersona :=
  { messageHistory := [], styleSamples := [ "a", "b", "c", "d", "e" ] }

/-- C1 counterexample: with search disabled and persona ineligible, a message
the oracle classifies as Search falls through to the direct branch, but the
response field of a search analysis is null (none), so the reply is not
usable displayable text. -/
theorem directFallthroughNullCounterexample :
    (analyzeWithAI (Except.ok "SEARCH: rain")).needsSearch = true ∧
    (analyzeWithAI (Except.ok "SEARCH: rain")).response = none ∧
    processMessage cfgAllOff emptyPersona (Except.ok "SEARCH: rain") =
      Fulfillment.directPath none := by
  refine ⟨by decide, by decide, by decide⟩

/-- C1 (amended): whenever neither the search nor the device path is
dispatched and persona mode is ineligible, the router replies with the
response field of the analysis record; that field is usable displayable text
(some string) exactly when the classification was direct — when the
classified action was Search or DeviceQuery but the corresponding flag is
disabled, the carried response is null instead. -/
theorem directFallthroughReply (cfg : Config) (p : UserPersona)
    (o : Except String String)
    (h1 : ((analyzeWithAI o).needsSearch && cfg.searchEnabled) = false)
    (h2 : ((analyzeWithAI o).needsPhoneAccess && cfg.phoneIntegrationEnabled) = false)
    (h3 : (cfg.userPersonaEnabled && decide (5 ≤ p.styleSamples.length)) = false) :
    processMessage cfg p o = Fulfillment.directPath (analyzeWithAI o).response ∧
    ((analyzeWithAI o).needsSearch = false →
      (analyzeWithAI o).needsPhoneAccess = false →
      ((analyzeWithAI o).response).isSome = true) ∧
    ((analyzeWithAI o).needsSearch = true → (analyzeWithAI o).response = none) ∧
    ((analyzeWithAI o).needsPhoneAccess = true →
      (analyzeWithAI o).response = none) := by
  refine ⟨by simp [processMessage, h1, h2, h3], ?_, ?_, ?_⟩
  · intro hns hnp
    cases o with
    | error e => simp [analyzeWithAI]
    | ok s =>
        by_cases hsw : jsStartsWith (jsToUpper s) "SEARCH:" = true
        · simp [analyzeWithAI, hsw] at hns
        · by_cases hpw : jsStartsWith (jsToUpper s) "PHONE:" = true
          · simp [analyzeWithAI, Bool.of_not_eq_true hsw, hpw] at hnp
          · simp [analyzeWithAI, Bool.of_not_eq_true hsw, Bool.of_not_eq_true hpw]
  · intro hns
    cases o with
    | error e => simp [analyzeWithAI] at hns
    | ok s =>
        by_cases hsw : jsStartsWith (jsToUpper s) "SEARCH:" = true
        · simp [analyzeWithAI, hsw]
        · by_cases hpw : jsStartsWith (jsToUpper s) "PHONE:" = true
          · simp [analyzeWithAI, Bool.of_not_eq_true hsw, hpw] at hns
          · simp [analyzeWithAI, Bool.of_not_eq_true hsw,
              Bool.of_not_eq_true hpw] at hns
  · intro hnp
    cases o with
    | error e => simp [analyzeWithAI] at hnp
    | ok s =>
        by_cases hsw : jsStartsWith (jsToUpper s) "SEARCH:" = true
        · simp [analyzeWithAI, hsw]
        · by_cases hpw : jsStartsWith (jsToUpper s) "PHONE:" = true
          · simp [analyzeWithAI, Bool.of_not_eq_true hsw, hpw]
          · simp [analyzeWithAI, Bool.of_not_eq_true hsw,
              Bool.of_not_eq_true hpw] at hnp

/-- C1 witness: a prefix-free oracle output with all flags off reaches the
direct branch and the reply is present displayable text. -/
theorem directFallthroughReplyWitness :
    processMessage cfgAllOff emptyPersona (Except.ok "hello there") =
      Fulfillment.directPath (analyzeWithAI (Except.ok "hello there")).response ∧
    ((analyzeWithAI (Except.ok "hello there")).response).isSome = true := by
  have h := directFallthroughReply cfgAllOff emptyPersona (Except.ok "hello there")
    (by decide) (by decide) (by decide)
  exact ⟨h.1, h.2.1 (by decide) (by decide)⟩

/-- C2: the dispatch of processMessage is the fixed precedence chain
search, then device, then persona, then direct — exactly one fulfillment path
results in every case; in particular, with persona eligible and a search
classification with search enabled, the search path executes and the persona
path does not. -/
theorem routerPrecedence (cfg : Config) (p : UserPersona)
    (o : Except String String) :
    (((analyzeWithAI o).needsSearch && cfg.searchEnabled) = true →
      processMessage cfg p o = Fulfillment.searchPath (analyzeWithAI o).searchQuery) ∧
    (((analyzeWithAI o).needsSearch && cfg.searchEnabled) = false →
      ((analyzeWithAI o).needsPhoneAccess && cfg.phoneIntegrationEnabled) = true →
      processMessage cfg p o =
        Fulfillment.devicePath (analyzeWithAI o).phoneAccessType
          (analyzeWithAI o).phoneAccessQuery) ∧
    (((analyzeWithAI o).needsSearch && cfg.searchEnabled) = false →
      ((analyzeWithAI o).needsPhoneAccess && cfg.phoneIntegrationEnabled) = false →
      (cfg.userPersonaEnabled && decide (5 ≤ p.styleSamples.length)) = true →
      processMessage cfg p o = Fulfillment.personaPath) ∧
    (((analyzeWithAI o).needsSearch && cfg.searchEnabled) = false →
      ((analyzeWithAI o).needsPhoneAccess && cfg.phoneIntegrationEnabled) = false →
      (cfg.userPersonaEnabled && decide (5 ≤ p.styleSamples.length)) = false →
      processMessage cfg p o = Fulfillment.directPath (analyzeWithAI o).response) ∧
    ((analyzeWithAI o).needsSearch = true → cfg.searchEnabled = true →
      cfg.userPersonaEnabled = true → 5 ≤ p.styleSamples.length →
      processMessage cfg p o = Fulfillment.searchPath (analyzeWithAI o).searchQuery ∧
      processMessage cfg p o ≠ Fulfillment.personaPath) := by
  refine ⟨?_, ?_, ?_, ?_, ?_⟩
  · intro h
    simp [processMessage, h]
  · intro h h2
    simp [processMessage, h, h2]
  · intro h h2 h3
    simp [processMessage, h, h2, h3]
  · intro h h2 h3
    simp [processMessage, h, h2, h3]
  · intro hns hse hpe hn
    have h : ((analyzeWithAI o).needsSearch && cfg.searchEnabled) = true := by
      rw [hns, hse]
      rfl
    constructor
    · simp [processMessage, h]
    · simp [processMessage, h]

/-- C2 witness: with every flag on and a persona-eligible profile, a search
classification executes the search path and not the persona path. -/
theorem routerPrecedenceWitness :
    processMessage cfgAllOn persona5 (Except.ok "SEARCH: x") =
      Fulfillment.searchPath (analyzeWithAI (Except.ok "SEARCH: x")).searchQuery ∧
    processMessage cfgAllOn persona5 (Except.ok "SEARCH: x") ≠
      Fulfillment.personaPath :=
  (routerPrecedence cfgAllOn persona5 (Except.ok "SEARCH: x")).2.2.2.2
    (by decide) rfl rfl (by decide)

/-- C8: the device dispatcher never raises — an unrecognized resource kind
yields the unknown-type error marker, and any error thrown by a capability
is caught and converted to the failed-access error marker of the same shape. -/
theorem getPhoneDataNeverRaises (cap : PhoneCapability) (type query : String) :
    (type ≠ "contacts" → type ≠ "files" → type ≠ "calendar" →
      type ≠ "location" →
      getPhoneData cap type query =
        PhoneData.errorMarker ( "Unknown phone data type: " ++ type)) ∧
    (∀ m : String, getPhoneDataBody cap type query = Except.error m →
      getPhoneData cap type query =
        PhoneData.errorMarker ( "Failed to access " ++ type ++ " data: " ++ m)) := by
  constructor
  · intro h1 h2 h3 h4
    simp [getPhoneData, getPhoneDataBody, h1, h2, h3, h4]
  · intro m hm
    simp [getPhoneData, hm]

/-- C8 witness: an unknown resource kind against the stubbed phone module
yields the unknown-type error marker. -/
theorem getPhoneDataNeverRaisesWitness :
    getPhoneData PhoneIntegration "unknown" "" =
      PhoneData.errorMarker ( "Unknown phone data type: " ++ "unknown") :=
  (getPhoneDataNeverRaises PhoneIntegration "unknown" "").1
    (by decide) (by decide) (by decide) (by decide)

/-- C9: with group restriction enabled, a non-self message whose chat is not
in the allowed list never produces a reply and never surfaces an error, on
every execution path — even when the chat lookup or the pipeline fails, the
error is swallowed silently rather than answered with the generic apology. -/
theorem gatedChatSilent (cfg : Config) (allowed : List String)
    (chatResult : Except String ChatInfo) (pipeline : Except String (Option String))
    (hr : cfg.groupRestrictionEnabled = true)
    (hc : ∀ c : ChatInfo, chatResult = Except.ok c →
      allowed.contains c.chatId = false) :
    handleIncomingMessage cfg allowed false chatResult pipeline =
      HandlerOutcome.noReply := by
  cases chatResult with
  | error e => simp [handleIncomingMessage, hr]
  | ok c =>
      have h : c.chatId ∉ allowed := by simpa using hc c rfl
      simp [handleIncomingMessage, hr, h]

/-- C9 witness: a failing pipeline in a non-allowed group chat under group
restriction produces no reply. -/
theorem gatedChatSilentWitness :
    handleIncomingMessage cfgAllOn [ "g1" ] false
      (Except.ok { chatId := "g2", isGroup := true }) (Except.error "boom") =
      HandlerOutcome.noReply :=
  gatedChatSilent cfgAllOn [ "g1" ] (Except.ok { chatId := "g2", isGroup := true })
    (Except.error "boom") rfl
    (by
      intro c h
      injection h with h2
      rw [← h2]
      decide)

/-- C10: for the contacts, calendar and location resource kinds, the result
of the device dispatcher is independent of the query text, because the
matching capability is invoked with no query argument. -/
theorem devicePathQueryIndependent (cap : PhoneCapability) (q1 q2 : String) :
    getPhoneData cap "contacts" q1 = getPhoneData cap "contacts" q2 ∧
    getPhoneData cap "calendar" q1 = getPhoneData cap "calendar" q2 ∧
    getPhoneData cap "location" q1 = getPhoneData cap "location" q2 :=
  ⟨rfl, rfl, rfl⟩

end Agent
